import Mathlib

/-!
Verification of the text-field extraction and chunking engine of a wiki
character RAG pipeline (`src/crawler/data_processor_v3.py`,
class `EnhancedGenshinProcessor`).

Python strings are modelled as Lean `String` (a list of characters);
every `re.sub` / `re.search` pass of the source is translated into an
explicit left-to-right, non-overlapping scanner over `List Char`,
preserving the source's pass order, alternation order and
greedy / lazy backtracking preference.  Character classes `\w`, `\s`,
`\d`, `[a-z]`, `[A-Z]` are the ASCII classes (all inputs reasoned about
here are ASCII, where Python's semantics coincide).

Python dicts that the code builds with a fixed key set are modelled as
structures; `dict.get(key, default)` on a possibly-missing key is
modelled with `Option` fields (see `ChunkChar`, whose doubly-nested
`Option` fields distinguish a missing key from a key stored with value
`None`, exactly the distinction `create_smart_chunks`'s defaults are
sensitive to).
-/

/-! ## Python string primitives -/

/-- Python `\s` / `str.strip` whitespace (ASCII part). -/
def isWsChar (c : Char) : Bool :=
  c = ' ' || c = '\t' || c = '\n' || c = '\r' || c = '\x0b' || c = '\x0c'

/-- ASCII lowercase letter, the class `[a-z]`. -/
def isLowerA (c : Char) : Bool := 'a' ≤ c && c ≤ 'z'

/-- ASCII uppercase letter, the class `[A-Z]`. -/
def isUpperA (c : Char) : Bool := 'A' ≤ c && c ≤ 'Z'

/-- ASCII letter, the class `[a-zA-Z]`. -/
def isLetterA (c : Char) : Bool := isLowerA c || isUpperA c

/-- ASCII digit, the class `\d`. -/
def isDigitA (c : Char) : Bool := '0' ≤ c && c ≤ '9'

/-- The word-character class `\w` (ASCII letters, digits, underscore). -/
def isWordChar (c : Char) : Bool := isLetterA c || isDigitA c || c = '_'

/-- Python `str.lower` (ASCII case mapping). -/
def pyLower (s : String) : String := ⟨s.data.map Char.toLower⟩

/-- Substring scan over char lists: does `hay` contain `pat`?
Models Python's `pat in hay`. -/
def containsSub (pat : List Char) : List Char → Bool
  | [] => pat.isEmpty
  | c :: t => pat.isPrefixOf (c :: t) || containsSub pat t

/-- Python `sub in s` on strings. -/
def pyContains (s sub : String) : Bool := containsSub sub.data s.data

/-- Drop a trailing run of whitespace from a char list. -/
def stripEndL (l : List Char) : List Char := (l.reverse.dropWhile isWsChar).reverse

/-- Python `str.strip()`: drop leading and trailing whitespace. -/
def pyStrip (s : String) : String := ⟨stripEndL (s.data.dropWhile isWsChar)⟩

/-- Python `str.split()` (split on whitespace runs, dropping empties). -/
def pySplitWsGo : List Char → List Char → List String
  | cur, [] => if cur.isEmpty then [] else [⟨cur.reverse⟩]
  | cur, c :: t =>
      if isWsChar c then
        if cur.isEmpty then pySplitWsGo [] t else ⟨cur.reverse⟩ :: pySplitWsGo [] t
      else pySplitWsGo (c :: cur) t

/-- Python `str.split()` on a string. -/
def pySplitWs (s : String) : List String := pySplitWsGo [] s.data

/-- Python `sep.join(parts)`. -/
def pyJoin (sep : String) : List String → String
  | [] => ""
  | [x] => x
  | x :: y :: t => x ++ sep ++ pyJoin sep (y :: t)

/-- Python `str.capitalize()` (first char upper, rest lower). -/
def pyCapitalize (s : String) : String :=
  match s.data with
  | [] => ""
  | c :: t => ⟨Char.toUpper c :: t.map Char.toLower⟩

/-- Python single-char `str.replace(a, b)`. -/
def pyReplaceChar (a b : Char) (s : String) : String :=
  ⟨s.data.map (fun c => if c = a then b else c)⟩

/-- Python `str.replace(c, '')`: remove every occurrence of char `c`. -/
def pyRemoveChar (a : Char) (s : List Char) : List Char :=
  s.filter (fun c => ¬ c = a)

/-- Digit run to the number it denotes (Python `int` on a `\d+` capture). -/
def digitsToNat (l : List Char) : Nat :=
  l.foldl (fun acc c => acc * 10 + (c.toNat - '0'.toNat)) 0

/-- Concatenation map over lists (Python list accumulation in a loop). -/
def listConcatMap (f : α → List β) : List α → List β
  | [] => []
  | x :: t => f x ++ listConcatMap f t

/-! ## The `re.sub` passes of `clean_text` (source order) -/

/-- Pass for `re.sub(r'\[\d+\]', '', text)`: remove bracketed numeric reference
markers, scanning left to right, non-overlapping. -/
def subRefNum : Nat → List Char → List Char
  | 0, cs => cs
  | _ + 1, [] => []
  | f + 1, '[' :: rest =>
      let ds := rest.takeWhile isDigitA
      if ¬ ds.isEmpty ∧ (rest.drop ds.length).head? = some ']' then
        subRefNum f (rest.drop (ds.length + 1))
      else '[' :: subRefNum f rest
  | f + 1, c :: rest => c :: subRefNum f rest

/-- Pass for `re.sub(r'\[edit\]', '', text)`. -/
def subEditL : List Char → List Char
  | '[' :: 'e' :: 'd' :: 'i' :: 't' :: ']' :: rest => subEditL rest
  | c :: rest => c :: subEditL rest
  | [] => []

/-- Pass for `re.sub(r'\[Note\s*\d+\]', '', text)`. -/
def subNoteL : Nat → List Char → List Char
  | 0, cs => cs
  | _ + 1, [] => []
  | f + 1, '[' :: 'N' :: 'o' :: 't' :: 'e' :: rest =>
      let r2 := rest.dropWhile isWsChar
      let ds := r2.takeWhile isDigitA
      if ¬ ds.isEmpty ∧ (r2.drop ds.length).head? = some ']' then
        subNoteL f (r2.drop (ds.length + 1))
      else '[' :: subNoteL f ('N' :: 'o' :: 't' :: 'e' :: rest)
  | f + 1, c :: rest => c :: subNoteL f rest

/-- Pass for `re.sub(r'([a-z])([A-Z])', r'\1 \2', text)`: insert a space between a
lowercase letter immediately followed by an uppercase letter. -/
def subLowUp : List Char → List Char
  | a :: b :: t =>
      if isLowerA a && isUpperA b then a :: ' ' :: b :: subLowUp t
      else a :: subLowUp (b :: t)
  | l => l

/-- First literal of `lits` that is a prefix of `cs`, with the remainder
after it (regex alternation of literals, source order). -/
def firstPrefLit (lits : List String) (cs : List Char) : Option (String × List Char) :=
  lits.findSome? fun w =>
    if w.data.isPrefixOf cs then some (w, cs.drop w.data.length) else none

/-- Pass for `re.sub(r'(\w)(Card|Wish|Quality|Weapon|Element|Model)', r'\1 \2', text)`. -/
def subStuck1 : Nat → List Char → List Char
  | 0, cs => cs
  | _ + 1, [] => []
  | f + 1, c :: rest =>
      if isWordChar c then
        match firstPrefLit ["Card", "Wish", "Quality", "Weapon", "Element", "Model"] rest with
        | some (w, rest') => c :: ' ' :: (w.data ++ subStuck1 f rest')
        | none => c :: subStuck1 f rest
      else c :: subStuck1 f rest

/-- Pass for `re.sub(r'(Type|Bonus|Roles|Bio|Birthday|Region|Dish)([\w])', r'\1 \2', text)`. -/
def subStuck2 : Nat → List Char → List Char
  | 0, cs => cs
  | _ + 1, [] => []
  | f + 1, cs@(c :: rest) =>
      match firstPrefLit ["Type", "Bonus", "Roles", "Bio", "Birthday", "Region", "Dish"] cs with
      | some (w, rest') =>
          match rest' with
          | d :: rest'' =>
              if isWordChar d then w.data ++ (' ' :: d :: subStuck2 f rest'')
              else c :: subStuck2 f rest
          | [] => c :: subStuck2 f rest
      | none => c :: subStuck2 f rest

/-- Pass for `re.sub(r'(English|Chinese|Japanese|Korean)([A-Z])', r'\1 \2', text)`. -/
def subStuck3 : Nat → List Char → List Char
  | 0, cs => cs
  | _ + 1, [] => []
  | f + 1, cs@(c :: rest) =>
      match firstPrefLit ["English", "Chinese", "Japanese", "Korean"] cs with
      | some (w, rest') =>
          match rest' with
          | d :: rest'' =>
              if isUpperA d then w.data ++ (' ' :: d :: subStuck3 f rest'')
              else c :: subStuck3 f rest
          | [] => c :: subStuck3 f rest
      | none => c :: subStuck3 f rest

/-- Pass for `re.sub(r'(Playable\s*Characters)(\w)', r'\1. \2', text)`. -/
def subStuck4 : Nat → List Char → List Char
  | 0, cs => cs
  | _ + 1, [] => []
  | f + 1, cs@(c :: rest) =>
      if ("Playable".data.isPrefixOf cs) then
        let r1 := cs.drop 8
        let ws := r1.takeWhile isWsChar
        let r2 := r1.drop ws.length
        if "Characters".data.isPrefixOf r2 then
          match r2.drop 10 with
          | d :: rest'' =>
              if isWordChar d then
                "Playable".data ++ ws ++ "Characters".data ++ ('.' :: ' ' :: d :: subStuck4 f rest'')
              else c :: subStuck4 f rest
          | [] => c :: subStuck4 f rest
        else c :: subStuck4 f rest
      else c :: subStuck4 f rest

/-- Pass for `re.sub(r'(Genshin)(Impact)', r'\1 \2', text)`. -/
def subStuck5 : Nat → List Char → List Char
  | 0, cs => cs
  | _ + 1, [] => []
  | f + 1, cs@(c :: rest) =>
      if "GenshinImpact".data.isPrefixOf cs then
        "Genshin Impact".data ++ subStuck5 f (cs.drop 13)
      else c :: subStuck5 f rest

/-- Pass for `re.sub(r'(\w)(character)(in)', r'\1 \2 \3', text)`. -/
def subStuck6 : Nat → List Char → List Char
  | 0, cs => cs
  | _ + 1, [] => []
  | f + 1, c :: rest =>
      if isWordChar c && "characterin".data.isPrefixOf rest then
        c :: ' ' :: ("character".data ++ (' ' :: ("in".data ++ subStuck6 f (rest.drop 11))))
      else c :: subStuck6 f rest

/-- Pass for `re.sub(r'(in)(Genshin)', r'\1 \2', text)`. -/
def subStuck7 : Nat → List Char → List Char
  | 0, cs => cs
  | _ + 1, [] => []
  | f + 1, cs@(c :: rest) =>
      if "inGenshin".data.isPrefixOf cs then
        "in Genshin".data ++ subStuck7 f (cs.drop 9)
      else c :: subStuck7 f rest

/-- Pass for `re.sub(r'\s+', ' ', text)`: collapse whitespace runs to one space. -/
def collapseWs : Nat → List Char → List Char
  | 0, cs => cs
  | _ + 1, [] => []
  | f + 1, c :: rest =>
      if isWsChar c then ' ' :: collapseWs f (rest.dropWhile isWsChar)
      else c :: collapseWs f rest

/-- Pass for `re.sub(r'\s+([.,!?])', r'\1', text)`: delete whitespace immediately
preceding sentence punctuation.  A whitespace run is consumed only when
the character right after it is one of `.,!?` (with `\s+` greedy this is
the only way the pattern can match). -/
def subWsPunct : Nat → List Char → List Char
  | 0, cs => cs
  | _ + 1, [] => []
  | f + 1, c :: rest =>
      if isWsChar c then
        let rest' := rest.dropWhile isWsChar
        match rest' with
        | p :: rest'' =>
            if p = '.' || p = ',' || p = '!' || p = '?' then p :: subWsPunct f rest''
            else c :: (rest.takeWhile isWsChar ++ subWsPunct f rest')
        | [] => c :: rest.takeWhile isWsChar
      else c :: subWsPunct f rest

/-- Source `EnhancedGenshinProcessor.clean_text`: the full normalizer pipeline,
pass for pass in source order. -/
def clean_text (text : String) : String :=
  if text = "" then ""
  else
    let t0 := text.data
    let t1 := subRefNum t0.length t0
    let t2 := subEditL t1
    let t3 := subNoteL t2.length t2
    let t4 := pyRemoveChar '\u24D8' t3
    let t5 := pyRemoveChar '\u200D' t4
    let t6 := pyRemoveChar '\u00AD' t5
    let t7 := subLowUp t6
    let t8 := subStuck1 t7.length t7
    let t9 := subStuck2 t8.length t8
    let t10 := subStuck3 t9.length t9
    let t11 := subStuck4 t10.length t10
    let t12 := subStuck5 t11.length t11
    let t13 := subStuck6 t12.length t12
    let t14 := subStuck7 t13.length t13
    let t15 := collapseWs t14.length t14
    let t16 := subWsPunct t15.length t15
    pyStrip ⟨t16⟩

/-! ## A small backtracking matcher for the source's `re.search` patterns

A `Matcher` sends a char list to the list of possible remainders after
matching one piece of a pattern, in backtracking preference order
(greedy pieces list longer consumptions first, lazy pieces shorter
first, alternations in source order).  `searchABG` then reproduces
`re.search`: leftmost start position wins, and at a position the first
remainder in preference order wins; the single capture group is the
text consumed between the `A` and `B` parts. -/

abbrev Matcher := List Char → List (List Char)

/-- Match a literal string. -/
def mLit (w : String) : Matcher := fun cs =>
  if w.data.isPrefixOf cs then [cs.drop w.data.length] else []

/-- Match a literal string case-insensitively (for `re.IGNORECASE`). -/
def mLitCI (w : String) : Matcher := fun cs =>
  if (w.data.map Char.toLower).isPrefixOf (cs.map Char.toLower) then
    [cs.drop w.data.length]
  else []

/-- Match one character of a class. -/
def mCls (p : Char → Bool) : Matcher := fun cs =>
  match cs with
  | c :: t => if p c then [t] else []
  | [] => []

/-- Greedy `p*` over a character class. -/
def mStarCls (p : Char → Bool) : Matcher := fun cs =>
  let n := (cs.takeWhile p).length
  (List.range (n + 1)).map (fun k => cs.drop (n - k))

/-- Greedy `p+` over a character class. -/
def mPlusCls (p : Char → Bool) : Matcher := fun cs =>
  let n := (cs.takeWhile p).length
  (List.range n).map (fun k => cs.drop (n - k))

/-- Lazy `p+?` over a character class. -/
def mPlusClsLazy (p : Char → Bool) : Matcher := fun cs =>
  let n := (cs.takeWhile p).length
  (List.range n).map (fun k => cs.drop (k + 1))

/-- Lazy `p*?` over a character class. -/
def mStarClsLazy (p : Char → Bool) : Matcher := fun cs =>
  let n := (cs.takeWhile p).length
  (List.range (n + 1)).map (fun k => cs.drop k)

/-- Greedy bounded repetition `p{lo,hi}` over a character class. -/
def mRepCls (p : Char → Bool) (lo hi : Nat) : Matcher := fun cs =>
  let n := min (cs.takeWhile p).length hi
  if n < lo then []
  else (List.range (n - lo + 1)).map (fun k => cs.drop (n - k))

/-- Exact repetition `p{k}` over a character class. -/
def mExactCls (p : Char → Bool) (k : Nat) : Matcher := fun cs =>
  if (cs.take k).length = k ∧ (cs.take k).all p then [cs.drop k] else []

/-- Sequencing of pattern pieces, preserving backtracking order. -/
def mSeq (a b : Matcher) : Matcher := fun cs =>
  listConcatMap b (a cs)

/-- Alternation, first alternative preferred. -/
def mAlt (a b : Matcher) : Matcher := fun cs => a cs ++ b cs

/-- The empty pattern. -/
def mEps : Matcher := fun cs => [cs]

/-- Greedy `(...)?` over a composite piece. -/
def mOptM (a : Matcher) : Matcher := fun cs => a cs ++ [cs]

/-- Fuelled greedy Kleene star over a composite piece (used for
`(?:\s+[A-Z][a-z]+)*`); repetitions must consume input. -/
def mStarMGo (a : Matcher) : Nat → List Char → List (List Char)
  | 0, cs => [cs]
  | f + 1, cs =>
      listConcatMap (fun r => mStarMGo a f r)
        ((a cs).filter (fun r => r.length < cs.length)) ++ [cs]

/-- Greedy star over a composite piece. -/
def mStarM (a : Matcher) : Matcher := fun cs => mStarMGo a cs.length cs

/-- Try pattern `A (G) B` at the current position; on success return the
capture (the text `G` consumed) and the remainder after `B`. -/
def tryAGB (A G B : Matcher) (cs : List Char) : Option (List Char × List Char) :=
  (A cs).findSome? fun r1 =>
    (G r1).findSome? fun r2 =>
      match B r2 with
      | r3 :: _ => some (r1.take (r1.length - r2.length), r3)
      | [] => none

/-- Search `re.search` for a pattern `A (G) B`: scan start positions left to
right, returning the first capture group (and remainder after the match). -/
def searchAGB (A G B : Matcher) : List Char → Option (List Char × List Char)
  | [] => tryAGB A G B []
  | c :: t =>
      match tryAGB A G B (c :: t) with
      | some r => some r
      | none => searchAGB A G B t

/-- Search `re.search` returning only the capture group, as a string. -/
def searchGroup (A G B : Matcher) (s : String) : Option String :=
  (searchAGB A G B s.data).map (fun r => ⟨r.1⟩)

/-- Search `re.search` for a groupless pattern, returning the remainder of the
text after `match.end()`. -/
def searchEnd (m : Matcher) : List Char → Option (List Char)
  | [] => (m []).head?
  | c :: t =>
      match m (c :: t) with
      | r :: _ => some r
      | [] => searchEnd m t

/-- Search `re.search` used as a boolean test. -/
def reSearchB (m : Matcher) (s : String) : Bool :=
  (searchEnd m s.data).isSome

/-! ## Field extractors -/

/-- The static `FIVE_STAR_CHARS` set of known 5-star names. -/
def FIVE_STAR_CHARS : List String :=
  ["Albedo", "Alhaitham", "Tartaglia", "Lyney", "Baizhu", "Chasca", "Chiori",
   "Citlali", "Clorinde", "Cyno", "Dehya", "Diluc", "Eula", "Furina",
   "Ganyu", "Hu Tao", "Itto", "Jean", "Kazuha", "Keqing", "Kinich",
   "Klee", "Mavuika", "Mona", "Mualani", "Nahida", "Navia", "Neuvillette",
   "Nilou", "Qiqi", "Raiden Shogun", "Shenhe", "Sigewinne", "Tighnari",
   "Venti", "Wanderer", "Wriothesley", "Xiao", "Xianyun", "Xilonen",
   "Yae Miko", "Yelan", "Yoimiya", "Zhongli", "Arlecchino", "Emilie",
   "Kamisato Ayaka", "Kamisato Ayato", "Kaedehara Kazuha", "Arataki Itto",
   "Sangonomiya Kokomi", "Columbina",
   "Zibai", "Ineffa", "Nefer", "Lauma", "Flins", "Aloy", "Traveler",
   "Yumemizuki Mizuki", "Durin", "Escoffier", "Skirk", "Varesa"]

/-- Source `EnhancedGenshinProcessor.extract_rarity`: static 5-star name list
first (any whitespace token, then the full name), then explicit textual
5-star markers, else 4. -/
def extract_rarity (name intro : String) : Nat :=
  if (pySplitWs name).any (fun part => FIVE_STAR_CHARS.contains part) then 5
  else if FIVE_STAR_CHARS.contains name then 5
  else if ["5★", "5-Star", "5 Star", "Quality5", "★★★★★"].any
      (fun ind => pyContains (pyLower intro) (pyLower ind)) then 5
  else 4

/-- Source `EnhancedGenshinProcessor._extract_field`: first option whose
lowercase form occurs in the lowercased text. -/
def _extract_field (text : String) (options : List String) : Option String :=
  options.find? (fun o => pyContains (pyLower text) (pyLower o))

/-- Python `str.replace(' ', '')`. -/
def pyRemoveSpaces (s : String) : String := ⟨pyRemoveChar ' ' s.data⟩

/-- Source `EnhancedGenshinProcessor._extract_model_type`. -/
def _extract_model_type (text : String) : Option String :=
  ["Tall Male", "Tall Female", "Medium Male", "Medium Female",
   "Short Male", "Short Female"].find?
    (fun m => pyContains (pyRemoveSpaces (pyLower text)) (pyRemoveSpaces (pyLower m)))

/-- Boolean role flags (`EnhancedGenshinProcessor.extract_character_roles`). -/
structure Roles where
  on_field : Bool
  off_field : Bool
  dps : Bool
  support : Bool
  survivability : Bool
deriving DecidableEq, Repr

/-- Source `EnhancedGenshinProcessor.extract_character_roles`. -/
def extract_character_roles (intro : String) : Roles :=
  let low := pyLower intro
  { on_field := pyContains low "on-field" || pyContains low "on field"
    off_field := pyContains low "off-field" || pyContains low "off field"
    dps := pyContains low "dps"
    support := pyContains low "support"
    survivability := pyContains low "survivability" || pyContains low "healing" ||
      pyContains low "healer" }

/-- Source `EnhancedGenshinProcessor._create_role_summary`. -/
def _create_role_summary (roles : Roles) : String :=
  let role_parts :=
    (if roles.on_field then ["On-Field"] else []) ++
    (if roles.off_field then ["Off-Field"] else []) ++
    (if roles.dps then ["DPS"] else []) ++
    (if roles.support then ["Support"] else []) ++
    (if roles.survivability then ["Healer/Shielder"] else [])
  if role_parts.isEmpty then "Unknown" else pyJoin " / " role_parts

/-- The event-wish-name search of `extract_how_to_obtain`:
`re.search(r'Event Wish\s*[—-]\s*([^F]+?)(?: Featured|Release)', intro)`. -/
def eventWishNameSearch (intro : String) : Option String :=
  searchGroup
    (mSeq (mLit "Event Wish")
      (mSeq (mStarCls isWsChar)
        (mSeq (mCls (fun c => c = '—' || c = '-')) (mStarCls isWsChar))))
    (mPlusClsLazy (fun c => ¬ c = 'F'))
    (mAlt (mLit " Featured") (mLit "Release"))
    intro

/-- Source `EnhancedGenshinProcessor.extract_how_to_obtain`: ordered checklist of
substring tests; defaults to `["Wishes"]` when nothing matched. -/
def extract_how_to_obtain (intro : String) : List String :=
  let low := pyLower intro
  let methods :=
    (if pyContains low "wishes" || pyContains low "wish" then ["Wishes"] else []) ++
    (if pyContains low "event wish" then
        match eventWishNameSearch intro with
        | some en => ["Event Wish: " ++ pyStrip en]
        | none => []
      else []) ++
    (if pyContains low "chronicled wishes" then ["Chronicled Wishes"] else []) ++
    (if pyContains low "paimon's bargains" then ["Paimon's Bargains"] else []) ++
    (if pyContains low "adventure rank" then ["Adventure Rank Reward"] else []) ++
    (if pyContains low "archon quest" || pyContains low "complete" then
        ["Quest Reward"] else [])
  if methods.isEmpty then ["Wishes"] else methods

/-- The date capture `([A-Z][a-z]+\s+\d{1,2},?\s*\d{4})` shared by both
release-date patterns. -/
def mDateGroup : Matcher :=
  mSeq (mCls isUpperA)
    (mSeq (mPlusCls isLowerA)
      (mSeq (mPlusCls isWsChar)
        (mSeq (mRepCls isDigitA 1 2)
          (mSeq (mOptM (mLit ","))
            (mSeq (mStarCls isWsChar) (mExactCls isDigitA 4))))))

/-- Source `EnhancedGenshinProcessor.extract_release_date`: two patterns tried in
order, returning the stripped first capture. -/
def extract_release_date (intro : String) : Option String :=
  let p1 := searchGroup
    (mSeq (mLit "Release")
      (mSeq (mStarCls isWsChar) (mSeq (mLit "Date") (mStarCls isWsChar))))
    mDateGroup mEps intro
  let p2 := searchGroup
    (mSeq (mLit "Release")
      (mSeq (mOptM (mLit "d"))
        (mSeq (mStarCls isWsChar)
          (mOptM (mSeq (mLit "on") (mStarCls isWsChar))))))
    mDateGroup mEps intro
  match p1 with
  | some d => some (pyStrip d)
  | none => p2.map pyStrip

/-- The cleanup `re.sub(r'\s*\([^)]*\)\s*', '', actor)` applied to voice
actor names: remove parenthetical asides with surrounding whitespace. -/
def subParenAside : Nat → List Char → List Char
  | 0, cs => cs
  | _ + 1, [] => []
  | f + 1, cs@(c :: rest) =>
      let ws1 := cs.takeWhile isWsChar
      let r1 := cs.drop ws1.length
      match r1 with
      | '(' :: r2 =>
          let inner := r2.takeWhile (fun d => ¬ d = ')')
          match r2.drop inner.length with
          | ')' :: r3 => subParenAside f (r3.dropWhile isWsChar)
          | _ => c :: subParenAside f rest
      | _ => c :: subParenAside f rest

/-- Cleanup of a captured voice-actor name: strip, remove parenthetical
asides and `[n]` reference markers (source order: parentheticals first). -/
def cleanVoiceActor (raw : List Char) : String :=
  let a1 := pyStrip ⟨raw⟩
  let a2 := subParenAside a1.data.length a1.data
  ⟨subRefNum a2.length a2⟩

/-- The language patterns of `extract_voice_actors`, in source order. -/
def voiceActorSearch (lang : String) (intro : String) : Option String :=
  let res :=
    if lang = "english" then
      searchAGB
        (mSeq (mLit "English") (mStarCls isWsChar))
        (mSeq (mCls isUpperA)
          (mSeq (mPlusCls isLowerA)
            (mStarM (mSeq (mPlusCls isWsChar) (mSeq (mCls isUpperA) (mPlusCls isLowerA))))))
        mEps intro.data
    else
      let tailAlt : Matcher :=
        if lang = "chinese" then mAlt (mLit "[") (mLit "Japanese")
        else if lang = "japanese" then mAlt (mLit "[") (mLit "Korean")
        else mAlt (mLit "[") (mLit "Additional")
      let langLit := if lang = "chinese" then "Chinese"
        else if lang = "japanese" then "Japanese" else "Korean"
      searchAGB
        (mSeq (mLit langLit) (mStarCls isWsChar))
        (mPlusClsLazy (fun c => ¬ c = '[' && ¬ c = ']'))
        (mSeq
          (mOptM (mSeq (mStarCls isWsChar)
            (mSeq (mLit "(")
              (mSeq (mPlusCls (fun c => ¬ c = ')')) (mLit ")")))))
          (mSeq (mStarCls isWsChar) tailAlt))
        intro.data
  match res with
  | some (g, _) =>
      let actor := cleanVoiceActor g
      if ¬ actor = "" ∧ 1 < actor.length ∧ actor.length < 50 then some actor else none
  | none => none

/-- Source `EnhancedGenshinProcessor.extract_voice_actors`: a mapping in the
source's fixed language order, keeping only captures passing the filters. -/
def extract_voice_actors (intro : String) : List (String × String) :=
  listConcatMap
    (fun lang =>
      match voiceActorSearch lang intro with
      | some actor => [(lang, actor)]
      | none => [])
    ["english", "chinese", "japanese", "korean"]

/-- Source `EnhancedGenshinProcessor.extract_character_type`: three-way
classification, always exactly one label. -/
def extract_character_type (intro : String) : String :=
  let low := pyLower intro
  if pyContains low "synthetic" then
    if pyContains low "creator" || pyContains low "created by" then "Synthetic (Created)"
    else if pyContains low "derived from" then "Synthetic (Derived)"
    else "Synthetic"
  else if pyContains low "adoptive" then "Adoptive"
  else "Biological"

/-- Source `EnhancedGenshinProcessor.extract_event_wishes` (both patterns carry
`re.IGNORECASE`; matching on the lowercased text with lowercased literals
is equivalent, and the digit capture is unaffected). -/
def extract_event_wishes (intro : String) : Option Nat :=
  let low := pyLower intro
  let p1 := searchGroup
    (mSeq (mLit "promoted or featured with a drop-rate boost in") (mStarCls isWsChar))
    (mPlusCls isDigitA)
    (mSeq (mStarCls isWsChar) (mLit "event wish"))
    low
  let p2 := searchGroup
    (mSeq (mLit "featured") (mStarClsLazy (fun c => ¬ c = '\n')))
    (mPlusCls isDigitA)
    (mSeq (mStarCls isWsChar) (mLit "event wish"))
    low
  match p1 with
  | some d => some (digitsToNat d.data)
  | none => p2.map (fun d => digitsToNat d.data)

/-- Source `EnhancedGenshinProcessor.extract_special_dish`: two patterns in
order, each validated (`2 < len < 100` after stripping and removing
reference markers). -/
def extract_special_dish (intro : String) : Option String :=
  let validate : Option String → Option String := fun g =>
    match g with
    | some raw =>
        let dish0 := pyStrip raw
        let dish := pyStrip ⟨subRefNum dish0.data.length dish0.data⟩
        if ¬ dish = "" ∧ 2 < dish.length ∧ dish.length < 100 then some dish else none
    | none => none
  let p1 := validate (searchGroup
    (mSeq (mLit "Special")
      (mSeq (mStarCls isWsChar) (mSeq (mLit "Dish") (mStarCls isWsChar))))
    (mSeq (mCls isUpperA) (mPlusClsLazy (fun c => ¬ c = 'N')))
    (mAlt (mLit " Namecard") (mLit "How"))
    intro)
  match p1 with
  | some d => some d
  | none => validate (searchGroup
      (mSeq (mLit "Special") (mSeq (mStarCls isWsChar) (mLit "Dish")))
      (mPlusClsLazy (fun c => ¬ c = 'N'))
      (mLit "Namecard")
      intro)

/-- Source `EnhancedGenshinProcessor.extract_namecard`. -/
def extract_namecard (intro : String) : Option String :=
  let validate : Option String → Option String := fun g =>
    match g with
    | some raw =>
        let n0 := pyStrip raw
        let n := ⟨subRefNum n0.data.length n0.data⟩
        if ¬ n = "" ∧ 2 < n.length then some n else none
    | none => none
  let p1 := validate (searchGroup
    (mSeq (mLit "Namecard") (mStarCls isWsChar))
    (mSeq (mCls isUpperA) (mPlusClsLazy (fun c => ¬ c = 'H')))
    (mAlt (mLit "How") (mAlt (mLit "Featured") (mLit "Release")))
    intro)
  match p1 with
  | some n => some n
  | none => validate (searchGroup
      (mLit "Namecard")
      (mPlusClsLazy (fun c => ¬ c = 'H'))
      (mLit "How")
      intro)

/-- Source `EnhancedGenshinProcessor.extract_real_name`. -/
def extract_real_name (intro : String) : Option String :=
  let g := searchGroup
    (mSeq (mLit "Real")
      (mSeq (mStarCls isWsChar) (mSeq (mLit "Name") (mStarCls isWsChar))))
    (mSeq (mCls isUpperA)
      (mSeq (mPlusCls isLowerA)
        (mStarM (mSeq (mPlusCls isWsChar) (mSeq (mCls isUpperA) (mPlusCls isLowerA))))))
    mEps intro
  match g with
  | some raw =>
      let n := pyStrip raw
      if ¬ n = "" ∧ 2 < n.length then some n else none
  | none => none

/-- Source `EnhancedGenshinProcessor.extract_title`: four patterns (with
`re.IGNORECASE`) in order, each validated (`3 < len < 50` after strip). -/
def extract_title (intro : String) : Option String :=
  let notQuoted : Char → Bool := fun c =>
    ¬ c = '"' && ¬ c = ',' && ¬ c = '.' && ¬ c = '[' && ¬ c = ']'
  let validate : Option String → Option String := fun g =>
    match g with
    | some raw =>
        let t := pyStrip raw
        if 3 < t.length ∧ t.length < 50 then some t else none
    | none => none
  let p1 := validate (searchGroup (mLit "\"") (mPlusCls (fun c => ¬ c = '"'))
    (mLit "\"") intro)
  let p2 := validate (searchGroup
    (mSeq (mLitCI "also known as") (mSeq (mPlusCls isWsChar) (mOptM (mLit "\""))))
    (mPlusCls notQuoted) (mOptM (mLit "\"")) intro)
  let p3 := validate (searchGroup
    (mSeq (mLitCI "known as") (mSeq (mPlusCls isWsChar) (mOptM (mLit "\""))))
    (mPlusCls notQuoted) (mOptM (mLit "\"")) intro)
  let p4 := validate (searchGroup
    (mSeq (mLitCI "titled") (mSeq (mPlusCls isWsChar) (mOptM (mLit "\""))))
    (mPlusCls notQuoted) (mOptM (mLit "\"")) intro)
  match p1 with
  | some t => some t
  | none => match p2 with
    | some t => some t
    | none => match p3 with
      | some t => some t
      | none => p4

/-- The affiliation keyword list of `extract_affiliation`, source order. -/
def affiliation_keywords : List String :=
  ["Knights of Favonius", "Liyue Qixing", "Fatui", "Adventurers' Guild",
   "Wangsheng Funeral Parlor", "Yashiro Commission", "Tenryou Commission",
   "Kamisato Clan", "Arataki Gang", "Watatsumi Army", "Sumeru Akademiya",
   "Spina di Rosula", "Hotel Bouffes d'ete", "House of the Hearth",
   "Maison Gardiennage", "The Crux", "Church of Favonius",
   "Grand Narukami Shrine", "Sangonomiya Shrine", "Shuumatsuban",
   "Hexenzirkel", "Eleven Fatui Harbingers", "The Seven",
   "Bubu Pharmacy", "Adepti", "Forest Rangers", "Matra",
   "Temple of Silence", "The Steambird", "Zubayr Theater",
   "Lightkeepers", "Three Moons", "Frostmoon Scions"]

/-- Source `EnhancedGenshinProcessor.extract_affiliation`: all matching keywords
in candidate-list order. -/
def extract_affiliation (intro : String) : List String :=
  affiliation_keywords.filter (fun a => pyContains (pyLower intro) (pyLower a))

/-- The constellation capture `([A-Z][a-z]+\s*[A-Z]?[a-z]*)`. -/
def mConstGroup : Matcher :=
  mSeq (mCls isUpperA)
    (mSeq (mPlusCls isLowerA)
      (mSeq (mStarCls isWsChar)
        (mSeq (mOptM (mCls isUpperA)) (mStarCls isLowerA))))

/-- Source `EnhancedGenshinProcessor.extract_constellation`: two patterns in
order, validated (`len > 3`, not starting with "Story"). -/
def extract_constellation (intro : String) : Option String :=
  let validate : Option String → Option String := fun g =>
    match g with
    | some raw =>
        let c := pyStrip raw
        if ¬ c = "" ∧ 3 < c.length ∧ ¬ "Story".data.isPrefixOf c.data then some c
        else none
    | none => none
  let p1 := validate (searchGroup
    (mSeq (mLit "Constellation") (mStarCls isWsChar)) mConstGroup mEps intro)
  match p1 with
  | some c => some c
  | none => validate (searchGroup
      (mSeq (mLit "lation") (mStarCls isWsChar)) mConstGroup mEps intro)

/-! ## Description synthesizer (`extract_clean_description` and helpers) -/

/-- Pass for `re.split(r'(?<=[.!?])\s+', text)`: split immediately after sentence
punctuation followed by whitespace (the punctuation stays attached).
`cur` is the reversed current piece. -/
def sentSplitGo : Nat → List Char → List Char → List (List Char)
  | 0, cur, cs => [cur.reverse ++ cs]
  | _ + 1, cur, [] => [cur.reverse]
  | f + 1, cur, c :: rest =>
      if isWsChar c ∧ (cur.head? = some '.' ∨ cur.head? = some '!' ∨ cur.head? = some '?') then
        cur.reverse :: sentSplitGo f [] (rest.dropWhile isWsChar)
      else sentSplitGo f (c :: cur) rest

/-- Sentence split of a string (always at least one piece, like
`re.split`). -/
def sentSplit (s : String) : List String :=
  (sentSplitGo (s.data.length + 1) [] s.data).map (fun l => ⟨l⟩)

/-- Pass for `re.sub(r'(is)([A-Z])', r'\1 \2', text)` of `_aggressive_spacing_fix`. -/
def subIsUp : List Char → List Char
  | 'i' :: 's' :: b :: t =>
      if isUpperA b then 'i' :: 's' :: ' ' :: b :: subIsUp t
      else 'i' :: subIsUp ('s' :: b :: t)
  | c :: t => c :: subIsUp t
  | [] => []

/-- Pass for `re.sub(r'([a-zA-Z])(character)', r'\1 character', text, flags=re.I)`:
case-insensitive match, literal lowercase replacement. -/
def subAnyCharacterCI : Nat → List Char → List Char
  | 0, cs => cs
  | _ + 1, [] => []
  | f + 1, c :: rest =>
      if isLetterA c && ((rest.take 9).map Char.toLower = "character".data) then
        c :: ' ' :: ("character".data ++ subAnyCharacterCI f (rest.drop 9))
      else c :: subAnyCharacterCI f rest

/-- Pass for `re.sub(r'([a-zA-Z])(Archon)', r'\1 Archon', text)`. -/
def subArchon : Nat → List Char → List Char
  | 0, cs => cs
  | _ + 1, [] => []
  | f + 1, c :: rest =>
      if isLetterA c && "Archon".data.isPrefixOf rest then
        c :: ' ' :: ("Archon".data ++ subArchon f (rest.drop 6))
      else c :: subArchon f rest

/-- Pass for `re.sub(r'([a-zA-Z])(Harbinger)', r'\1 Harbinger', text)`. -/
def subHarbinger : Nat → List Char → List Char
  | 0, cs => cs
  | _ + 1, [] => []
  | f + 1, c :: rest =>
      if isLetterA c && "Harbinger".data.isPrefixOf rest then
        c :: ' ' :: ("Harbinger".data ++ subHarbinger f (rest.drop 9))
      else c :: subHarbinger f rest

/-- Source `EnhancedGenshinProcessor._aggressive_spacing_fix`: the extra
un-gluing pass applied only for lore extraction. -/
def _aggressive_spacing_fix (text : String) : String :=
  if text = "" then text
  else
    let t1 := subLowUp text.data
    let t2 := subIsUp t1
    let t3 := subAnyCharacterCI t2.length t2
    let t4 := subArchon t3.length t3
    let t5 := subHarbinger t4.length t4
    let t6 := collapseWs t5.length t5
    pyStrip ⟨t6⟩

/-- Pass for `re.match(r'^(a|an|the)\s+', s)`: article opener test (anchored at
the start of the sentence). -/
def startsWithArticle (s : String) : Bool :=
  ¬ ((mSeq (mAlt (mLit "a") (mAlt (mLit "an") (mLit "the"))) (mPlusCls isWsChar)) s.data).isEmpty

/-- Search `re.search(r'\b(he|she)\s+is\b', s)`: third-person-pronoun identity
test with word boundaries; `prev` is the character before the current
position (for the left boundary). -/
def hasHeSheIsGo (prev : Option Char) : List Char → Bool
  | [] => false
  | c :: t =>
      let boundaryOK := match prev with
        | none => true
        | some p => ¬ isWordChar p
      let tryFrom : List Char → Bool := fun cs =>
        match
          ((mSeq (mAlt (mLit "he") (mLit "she"))
            (mSeq (mPlusCls isWsChar) (mLit "is"))) cs).find?
            (fun r => match r.head? with
              | some d => ¬ isWordChar d
              | none => true)
        with
        | some _ => true
        | none => false
      if boundaryOK && tryFrom (c :: t) then true
      else hasHeSheIsGo (some c) t

/-- Search `re.search(r'\b(he|she)\s+is\b', s)` on a string. -/
def hasHeSheIs (s : String) : Bool := hasHeSheIsGo none s.data

/-- The identity keywords of `_score_sentence`. -/
def IDENTITY_KEYWORDS : List String :=
  ["archon", "god", "deity", "immortal",
   "former", "current", "leader", "founder",
   "captain", "consultant", "knight",
   "descendant", "wander", "guardian"]

/-- The noise keywords of `_score_sentence`. -/
def NOISE_KEYWORDS : List String :=
  ["voice actor", "english", "chinese", "japanese",
   "birthday", "constellation", "release date",
   "featured", "event wish", "how to obtain"]

/-- Source `EnhancedGenshinProcessor._score_sentence`. -/
def _score_sentence (sentence name : String) : Int :=
  let s := pyLower sentence
  let score0 : Int := 0
  let score1 := if startsWithArticle s then score0 + 3 else score0
  let score2 := if hasHeSheIs s then score1 + 3 else score1
  let score3 := if pyContains s (pyLower name) then score2 + 4 else score2
  let score4 := IDENTITY_KEYWORDS.foldl
    (fun acc kw => if pyContains s kw then acc + 2 else acc) score3
  NOISE_KEYWORDS.foldl
    (fun acc n => if pyContains s n then acc - 4 else acc) score4

/-- Source `EnhancedGenshinProcessor._extract_marker_lore`: sentences following
one of three structural markers (all `re.IGNORECASE`; `re.escape(name)`
makes the name a literal), each marker contributing up to 3 sentences of
length 40–400 from the 800 characters after the match. -/
def _extract_marker_lore (text name : String) : List String :=
  let markers : List Matcher :=
    [ mSeq (mLitCI "Playable Characters") (mSeq (mStarCls isWsChar) (mLitCI name)),
      mSeq (mLitCI "Playable Characters")
        (mSeq (mStarClsLazy (fun c => ¬ c = '\n')) (mLitCI name)),
      mSeq (mLitCI name)
        (mSeq (mPlusCls isWsChar)
          (mSeq (mLitCI "is")
            (mSeq (mPlusCls isWsChar)
              (mSeq (mLitCI "a")
                (mSeq (mPlusCls isWsChar) (mLitCI "playable")))))) ]
  listConcatMap
    (fun m =>
      match searchEnd m text.data with
      | some rem =>
          let tail : String := ⟨rem.take 800⟩
          listConcatMap
            (fun s =>
              let s' := pyStrip s
              if 40 ≤ s'.length ∧ s'.length ≤ 400 then [s'] else [])
            ((sentSplit tail).take 3)
      | none => [])
    markers

/-- The reveal patterns of `_extract_role_reveal_lore` (searched in the
lowercased sentence; three carry a lazy gap `.*?`). -/
def roleRevealHit (sLow : String) : Bool :=
  reSearchB (mLit "is later revealed to be") sLow ||
  reSearchB (mSeq (mLit "is the ")
    (mSeq (mStarClsLazy (fun c => ¬ c = '\n')) (mLit " archon"))) sLow ||
  reSearchB (mSeq (mLit "is the ")
    (mSeq (mStarClsLazy (fun c => ¬ c = '\n')) (mLit " harbinger"))) sLow ||
  reSearchB (mLit "a consultant of") sLow ||
  reSearchB (mSeq (mLit "former ")
    (mSeq (mStarClsLazy (fun c => ¬ c = '\n')) (mLit " of"))) sLow ||
  reSearchB (mLit "leader of") sLow ||
  reSearchB (mLit "founder of") sLow ||
  reSearchB (mLit "from another world") sLow ||
  reSearchB (mLit "crossover character") sLow

/-- Source `EnhancedGenshinProcessor._extract_role_reveal_lore`. -/
def _extract_role_reveal_lore (sentences : List String) : List String :=
  listConcatMap
    (fun s =>
      if roleRevealHit (pyLower s) ∧ 40 ≤ s.length ∧ s.length ≤ 300 then [pyStrip s]
      else [])
    sentences

/-- Source `EnhancedGenshinProcessor._extract_official_intro`: the first section
whose key is "official introduction" (case-insensitive) with a body
longer than 200 characters. -/
def _extract_official_intro (sections : List (String × String)) : Option String :=
  sections.findSome? fun kv =>
    if pyLower kv.1 = "official introduction" ∧ ¬ kv.2 = "" ∧ 200 < kv.2.length then
      some (pyStrip kv.2)
    else none

/-- Source `EnhancedGenshinProcessor._is_system_character`. -/
def _is_system_character (name url intro : String) : Bool :=
  let text := pyLower (name ++ " " ++ url ++ " " ++ intro)
  pyContains text "wonderland" || pyContains text "gameplay mode" ||
    pyContains text "system character"

/-- Stable insertion (descending by score): a sentence goes after every
earlier sentence with a score not below its own, reproducing Python's
stable `list.sort(key=score, reverse=True)`. -/
def insDescStable (x : String × Int) : List (String × Int) → List (String × Int)
  | [] => [x]
  | y :: t => if y.2 > x.2 then y :: insDescStable x t else x :: y :: t

/-- Stable sort, descending by score. -/
def stableSortDesc (l : List (String × Int)) : List (String × Int) :=
  l.foldr insDescStable []

/-- Append new fragments, skipping exact duplicates (the
`if s not in description_parts` accumulation). -/
def dedupAppend (acc : List String) (new : List String) : List String :=
  new.foldl (fun a s => if a.contains s then a else a ++ [s]) acc

/-- The fixed sentence returned for system / gameplay-mode characters. -/
def systemCharacterSentence : String :=
  "The Wonderland Manekin is a playable system character representing " ++
  "the Miliastra Wonderland gameplay mode in Genshin Impact."

/-- Source `EnhancedGenshinProcessor.extract_clean_description`: tiered, additive
lore selection (system short-circuit; official introduction; marker
lore; role-reveal lore; scored sentences; fallback), then a final
normalizer pass. -/
def extract_clean_description (name intro full_text : String)
    (sections : List (String × String)) (url : String) : String :=
  if _is_system_character name url intro then systemCharacterSentence
  else
    let parts0 : List String :=
      match _extract_official_intro sections with
      | some o => [o]
      | none => []
    let fixed_intro := _aggressive_spacing_fix intro
    let sentences := sentSplit fixed_intro
    let parts1 := dedupAppend parts0 (_extract_marker_lore fixed_intro name)
    let parts2 := dedupAppend parts1 (_extract_role_reveal_lore sentences)
    let scored := listConcatMap
      (fun s =>
        let s' := pyStrip s
        if 30 ≤ s'.length ∧ s'.length ≤ 400 then [(s', _score_sentence s' name)]
        else [])
      sentences
    let sorted := stableSortDesc scored
    let selected := ((sorted.filter (fun p => 4 ≤ p.2)).map (fun p => p.1)).take 3
    let parts3 := dedupAppend parts2 selected
    let description :=
      if ¬ parts3.isEmpty then pyJoin " " (parts3.take 3)
      else
        match sentences with
        | s :: _ => s
        | [] => ⟨fixed_intro.data.take 300⟩
    let d2 := clean_text description
    pyStrip ⟨collapseWs d2.data.length d2.data⟩

/-! ## Record assembler (`process_character`) and renderer -/

/-- A raw crawled record (the input dict; every key may be missing). -/
structure Raw where
  name : Option String
  url : Option String
  introduction : Option String
  full_text : Option String
  sections : Option (List (String × String))
deriving Repr

/-- The structured character record built by `process_character`, minus
`full_text` (the dict at the moment `_create_rag_text` is called; the
`birthday` key is only stored when its regex matched, hence `Option`). -/
structure InfoCore where
  name : String
  url : String
  element : Option String
  weapon : Option String
  rarity : Nat
  region : Option String
  model_type : Option String
  title : Option String
  affiliations : List String
  constellation : Option String
  roles : Roles
  role_summary : String
  how_to_obtain : List String
  release_date : Option String
  voice_actors : List (String × String)
  character_type : String
  event_wishes_count : Option Nat
  special_dish : Option String
  namecard : Option String
  real_name : Option String
  birthday : Option String
  description : String
  sections : List (String × String)
deriving Repr

/-- The full structured record (with the rendered `full_text`). -/
structure Info extends InfoCore where
  full_text : String
deriving Repr

/-- Pass for `re.sub(r'\[.*?\]', '', name)`: remove lazily-bracketed annotations
(`.` does not cross newlines). -/
def subBrkAny : Nat → List Char → List Char
  | 0, cs => cs
  | _ + 1, [] => []
  | f + 1, '[' :: rest =>
      let inner := rest.takeWhile (fun c => ¬ c = ']' && ¬ c = '\n')
      match rest.drop inner.length with
      | ']' :: r3 => subBrkAny f r3
      | _ => '[' :: subBrkAny f rest
  | f + 1, c :: rest => c :: subBrkAny f rest

/-- Pass for `re.sub(r'\[\]', '', name)`. -/
def subBrkEmpty : List Char → List Char
  | '[' :: ']' :: rest => subBrkEmpty rest
  | c :: rest => c :: subBrkEmpty rest
  | [] => []

/-- Source `EnhancedGenshinProcessor._clean_section_name`: drop `[]` and
bracketed annotations, then strip. -/
def _clean_section_name (name : String) : String :=
  let t1 := subBrkEmpty name.data
  pyStrip ⟨subBrkAny t1.length t1⟩

/-- Insert into a Python dict modelled as an ordered association list:
an existing key is updated in place, a new key is appended. -/
def dictInsert (l : List (String × String)) (k v : String) : List (String × String) :=
  if l.any (fun p => p.1 = k) then
    l.map (fun p => if p.1 = k then (k, v) else p)
  else l ++ [(k, v)]

/-- The cleaned-sections dict comprehension of `process_character`
(`{clean_name(k): clean_text(v) for k, v in sections.items() if v and len(v) > 20}`),
with Python's dict semantics on colliding cleaned keys. -/
def cleanSections (sections : List (String × String)) : List (String × String) :=
  (sections.filter (fun kv => ¬ kv.2 = "" ∧ 20 < kv.2.length)).foldl
    (fun acc kv => dictInsert acc (_clean_section_name kv.1) (clean_text kv.2)) []

/-- The birthday capture of `process_character`:
`re.search(r'Birthday\s*([A-Z][a-z]+\s+\d+)', intro)`. -/
def birthdaySearch (intro : String) : Option String :=
  searchGroup
    (mSeq (mLit "Birthday") (mStarCls isWsChar))
    (mSeq (mCls isUpperA)
      (mSeq (mPlusCls isLowerA) (mSeq (mPlusCls isWsChar) (mPlusCls isDigitA))))
    mEps intro

/-- Source `EnhancedGenshinProcessor._create_rag_text`: the canonical Markdown
rendering of a structured record. -/
def _create_rag_text (info : InfoCore) : String :=
  let parts : List String :=
    ["# " ++ info.name] ++
    (match info.title with
      | some t => if ¬ t = "" then ["Also known as: " ++ t] else []
      | none => []) ++
    (match info.real_name with
      | some rn => if ¬ rn = "" ∧ ¬ rn = info.name then ["Real name: " ++ rn] else []
      | none => []) ++
    [""] ++
    ["## Basic Information"] ++
    (match info.element with
      | some v => if ¬ v = "" then ["- Element: " ++ v] else []
      | none => []) ++
    (match info.weapon with
      | some v => if ¬ v = "" then ["- Weapon: " ++ v] else []
      | none => []) ++
    (if ¬ info.rarity = 0 then ["- Rarity: " ++ toString info.rarity ++ "-Star"] else []) ++
    (match info.region with
      | some v => if ¬ v = "" then ["- Region: " ++ v] else []
      | none => []) ++
    (match info.model_type with
      | some v => if ¬ v = "" then ["- Model: " ++ v] else []
      | none => []) ++
    (match info.birthday with
      | some v => if ¬ v = "" then ["- Birthday: " ++ v] else []
      | none => []) ++
    (match info.constellation with
      | some v => if ¬ v = "" then ["- Constellation: " ++ v] else []
      | none => []) ++
    (if ¬ info.character_type = "" then ["- Character Type: " ++ info.character_type] else []) ++
    (if ¬ info.affiliations.isEmpty then
        ["- Affiliations: " ++ pyJoin ", " info.affiliations] else []) ++
    [""] ++
    (if ¬ info.role_summary = "" then
        ["## Character Roles", "- Role: " ++ info.role_summary, ""] else []) ++
    (if ¬ info.how_to_obtain.isEmpty then
        ["## How to Obtain"] ++ info.how_to_obtain.map (fun m => "- " ++ m) ++
        (match info.event_wishes_count with
          | some n => if ¬ n = 0 then
              ["- Featured in " ++ toString n ++ " Event Wishes"] else []
          | none => []) ++ [""]
      else []) ++
    (match info.release_date with
      | some d => if ¬ d = "" then ["## Release Date", "Released on: " ++ d, ""] else []
      | none => []) ++
    (if ¬ info.voice_actors.isEmpty then
        ["## Voice Actors"] ++
        info.voice_actors.map (fun la => "- " ++ pyCapitalize la.1 ++ ": " ++ la.2) ++ [""]
      else []) ++
    (match info.special_dish with
      | some d => if ¬ d = "" then ["## Special Dish", "- " ++ d, ""] else []
      | none => []) ++
    (match info.namecard with
      | some n => if ¬ n = "" then ["## Namecard", "- " ++ n, ""] else []
      | none => []) ++
    (if ¬ info.description = "" then ["## About", info.description, ""] else []) ++
    listConcatMap
      (fun kv =>
        if ¬ (["Ascensions", "Stats", "Wishes", "Bargains", "Gallery", "Trivia"].any
            (fun skip => pyContains kv.1 skip)) then
          if ¬ kv.2 = "" ∧ 30 < kv.2.length then ["## " ++ kv.1, kv.2, ""] else []
        else [])
      info.sections
  pyJoin "\n" parts

/-- Source `EnhancedGenshinProcessor.process_character`: assemble the structured
record from a raw record (missing keys fall back to the dict-get
defaults of the source), then render `full_text`. -/
def process_character (raw_data : Raw) : Info :=
  let name := raw_data.name.getD "Unknown"
  let intro := raw_data.introduction.getD ""
  let core : InfoCore :=
    { name := name
      url := raw_data.url.getD ""
      element := _extract_field intro
        ["Pyro", "Hydro", "Electro", "Cryo", "Anemo", "Geo", "Dendro"]
      weapon := _extract_field intro
        ["Sword", "Claymore", "Polearm", "Bow", "Catalyst"]
      rarity := extract_rarity name intro
      region := _extract_field intro
        ["Mondstadt", "Liyue", "Inazuma", "Sumeru", "Fontaine",
         "Natlan", "Snezhnaya", "Khaenri'ah", "Nod-Krai"]
      model_type := _extract_model_type intro
      title := extract_title intro
      affiliations := extract_affiliation intro
      constellation := extract_constellation intro
      roles := extract_character_roles intro
      role_summary := _create_role_summary (extract_character_roles intro)
      how_to_obtain := extract_how_to_obtain intro
      release_date := extract_release_date intro
      voice_actors := extract_voice_actors intro
      character_type := extract_character_type intro
      event_wishes_count := extract_event_wishes intro
      special_dish := extract_special_dish intro
      namecard := extract_namecard intro
      real_name := extract_real_name intro
      birthday := birthdaySearch intro
      description := extract_clean_description name intro
        (raw_data.full_text.getD "") (raw_data.sections.getD []) (raw_data.url.getD "")
      sections := cleanSections (raw_data.sections.getD []) }
  { toInfoCore := core, full_text := _create_rag_text core }

/-! ## Chunker (`create_smart_chunks`) -/

/-- A metadata value in a chunk (`None`, a string, or an int). -/
inductive MetaVal where
  | none : MetaVal
  | str : String → MetaVal
  | int : Nat → MetaVal
deriving DecidableEq, Repr

/-- A retrieval chunk. -/
structure Chunk where
  id : String
  character : String
  chunk_type : String
  section_name : Option String
  content : String
  metadata : List (String × MetaVal)
deriving Repr

/-- The dict passed to `create_smart_chunks` for one character.  An outer
`none` is a missing key.  For the five fields whose `char.get` carries a
non-`None` default in the basic-info template (name, element, weapon,
rarity, region, role_summary), the inner `Option` distinguishes a key
stored with value `None` from the stored string, so that both the
`'Unknown'` default (missing key) and the f-string rendering `"None"`
(key present, value `None`) are representable.  For the remaining keys
the default is `None` itself, so a missing key and a stored `None`
behave identically and a single `Option` suffices. -/
structure ChunkChar where
  name : Option String
  element : Option (Option String)
  weapon : Option (Option String)
  rarity : Option (Option Nat)
  region : Option (Option String)
  role_summary : Option (Option String)
  affiliations : Option (List String)
  birthday : Option String
  release_date : Option String
  description : Option String
  voice_actors : Option (List (String × String))
  special_dish : Option String
  namecard : Option String
  how_to_obtain : Option (List String)
  url : Option String
  sections : Option (List (String × String))
deriving Repr

/-- Getter `char.get(key, default)` rendered into an f-string: a missing key
gives the default, a key stored with `None` renders as `"None"`. -/
def pyGetStrD (v : Option (Option String)) (dflt : String) : String :=
  match v with
  | Option.none => dflt
  | some Option.none => "None"
  | some (some s) => s

/-- Getter `char.get('rarity', 4)` rendered into an f-string. -/
def pyGetRarityD (v : Option (Option Nat)) : String :=
  match v with
  | Option.none => "4"
  | some Option.none => "None"
  | some (some n) => toString n

/-- Getter `char.get(key)` as a metadata value. -/
def metaStr2 (v : Option (Option String)) : MetaVal :=
  match v with
  | some (some s) => MetaVal.str s
  | _ => MetaVal.none

/-- Getter `char.get('rarity')` as a metadata value. -/
def metaNat2 (v : Option (Option Nat)) : MetaVal :=
  match v with
  | some (some n) => MetaVal.int n
  | _ => MetaVal.none

/-- Getter `char.get(key)` as a metadata value (singly-wrapped keys). -/
def metaStr1 (v : Option String) : MetaVal :=
  match v with
  | some s => MetaVal.str s
  | Option.none => MetaVal.none

/-- Python truthiness of `char.get(key)` for a string-valued key. -/
def pyTruthyStr (v : Option String) : Bool :=
  match v with
  | some s => ¬ s = ""
  | Option.none => false

/-- Python truthiness of `char.get(key)` for a list-valued key. -/
def pyTruthyList (v : Option (List α)) : Bool :=
  match v with
  | some l => ¬ l.isEmpty
  | Option.none => false

/-- The chunk-id prefix `name.lower().replace(' ', '_')`. -/
def chunkIdBase (nm : String) : String := pyReplaceChar ' ' '_' (pyLower nm)

/-- One `- <Label>: <value>` line of the basic-info template. -/
def infoLine (label v : String) : String := "- " ++ label ++ ": " ++ v ++ "\n"

/-- The conditional affiliations / birthday / release-date lines appended
to the basic-info template. -/
def basicCondLines (c : ChunkChar) : String :=
  (if pyTruthyList c.affiliations then
      "- Affiliations: " ++ pyJoin ", " (c.affiliations.getD []) ++ "\n" else "") ++
  (if pyTruthyStr c.birthday then
      "- Birthday: " ++ c.birthday.getD "" ++ "\n" else "") ++
  (if pyTruthyStr c.release_date then
      "- Release Date: " ++ c.release_date.getD "" ++ "\n" else "")

/-- The basic-info text of a character (the f-string template of
`create_smart_chunks` plus its conditional lines, before `.strip()`). -/
def basicInfoText (c : ChunkChar) : String :=
  let nm := c.name.getD "Unknown"
  "# " ++ nm ++ "\n\n## Basic Information\n" ++
  infoLine "Element" (pyGetStrD c.element "Unknown") ++
  infoLine "Weapon" (pyGetStrD c.weapon "Unknown") ++
  "- Rarity: " ++ pyGetRarityD c.rarity ++ "-Star\n" ++
  infoLine "Region" (pyGetStrD c.region "Unknown") ++
  infoLine "Role" (pyGetStrD c.role_summary "Unknown") ++
  basicCondLines c

/-- The always-emitted `basic_info` chunk of a character. -/
def basicChunkFor (c : ChunkChar) : Chunk :=
  let nm := c.name.getD "Unknown"
  { id := chunkIdBase nm ++ "_basic"
    character := nm
    chunk_type := "basic_info"
    section_name := Option.none
    content := pyStrip (basicInfoText c)
    metadata :=
      [("element", metaStr2 c.element), ("weapon", metaStr2 c.weapon),
       ("rarity", metaNat2 c.rarity), ("region", metaStr2 c.region),
       ("role_summary", metaStr2 c.role_summary), ("url", metaStr1 c.url)] }

/-- The `description` chunk (emitted when the description is truthy and
longer than 50 characters). -/
def descChunkFor (c : ChunkChar) : Chunk :=
  let nm := c.name.getD "Unknown"
  { id := chunkIdBase nm ++ "_description"
    character := nm
    chunk_type := "description"
    section_name := Option.none
    content := pyStrip ("# " ++ nm ++ " - Description\n\n" ++ c.description.getD "" ++ "\n")
    metadata :=
      [("element", metaStr2 c.element), ("weapon", metaStr2 c.weapon),
       ("region", metaStr2 c.region), ("url", metaStr1 c.url)] }

/-- The `meta_info` chunk (voice actors, special dish, namecard, obtain
methods). -/
def metaChunkFor (c : ChunkChar) : Chunk :=
  let nm := c.name.getD "Unknown"
  let content :=
    "# " ++ nm ++ " - Additional Info\n\n" ++
    (if pyTruthyList c.voice_actors then
        "## Voice Actors\n" ++
        pyJoin "" ((c.voice_actors.getD []).map
          (fun la => "- " ++ pyCapitalize la.1 ++ ": " ++ la.2 ++ "\n")) ++ "\n"
      else "") ++
    (if pyTruthyStr c.special_dish then
        "## Special Dish\n- " ++ c.special_dish.getD "" ++ "\n\n" else "") ++
    (if pyTruthyStr c.namecard then
        "## Namecard\n- " ++ c.namecard.getD "" ++ "\n\n" else "") ++
    (if pyTruthyList c.how_to_obtain then
        "## How to Obtain\n" ++
        pyJoin "" ((c.how_to_obtain.getD []).map (fun m => "- " ++ m ++ "\n"))
      else "")
  { id := chunkIdBase nm ++ "_meta"
    character := nm
    chunk_type := "meta_info"
    section_name := Option.none
    content := pyStrip content
    metadata := [("element", metaStr2 c.element), ("url", metaStr1 c.url)] }

/-- The `section` chunks: one per stored section with body longer than
50 characters. -/
def sectionChunksFor (c : ChunkChar) : List Chunk :=
  let nm := c.name.getD "Unknown"
  listConcatMap
    (fun kv =>
      if ¬ kv.2 = "" ∧ 50 < kv.2.length then
        [{ id := chunkIdBase nm ++ "_" ++ pyReplaceChar ' ' '_' (pyLower kv.1)
           character := nm
           chunk_type := "section"
           section_name := some kv.1
           content := pyStrip ("# " ++ nm ++ " - " ++ kv.1 ++ "\n\n" ++ kv.2 ++ "\n")
           metadata :=
             [("element", metaStr2 c.element), ("weapon", metaStr2 c.weapon),
              ("region", metaStr2 c.region), ("url", metaStr1 c.url)] }]
      else [])
    (c.sections.getD [])

/-- The chunks emitted for one character, in emission order. -/
def chunksForChar (c : ChunkChar) : List Chunk :=
  basicChunkFor c ::
    ((if (match c.description with
          | some d => (¬ d = "") && 50 < d.length
          | Option.none => false) then [descChunkFor c] else []) ++
     (if pyTruthyList c.voice_actors || pyTruthyStr c.special_dish then
        [metaChunkFor c] else []) ++
     sectionChunksFor c)

/-- Source `EnhancedGenshinProcessor.create_smart_chunks`: all chunks over the
batch, in input order (the unused `chunk_size` default of the source is
dropped). -/
def create_smart_chunks (data : List ChunkChar) : List Chunk :=
  listConcatMap chunksForChar data

/-- The processed record as the dict `create_smart_chunks` receives:
`process_character` stores every key, so every field is wrapped `some`
(with `birthday` stored only when its regex matched). -/
def toChunkChar (i : Info) : ChunkChar :=
  { name := some i.name
    element := some i.element
    weapon := some i.weapon
    rarity := some (some i.rarity)
    region := some i.region
    role_summary := some (some i.role_summary)
    affiliations := some i.affiliations
    birthday := i.birthday
    release_date := i.release_date
    description := some i.description
    voice_actors := some i.voice_actors
    special_dish := i.special_dish
    namecard := i.namecard
    how_to_obtain := some i.how_to_obtain
    url := some i.url
    sections := some i.sections }

/-! ## Helper lemmas -/

/-- String append acts as list append on the underlying data. -/
theorem strDataAppend (a b : String) : (a ++ b).data = a.data ++ b.data := rfl

/-- Strings with equal data are equal. -/
theorem strExt {a b : String} (h : a.data = b.data) : a = b := by
  cases a; cases b; exact congrArg String.mk h

/-- A checker for the property claimed of the normalizer: some ASCII
letter is immediately followed by a decimal digit. -/
def hasLetterDigitAdj : List Char → Bool
  | a :: b :: t => (isLetterA a && isDigitA b) || hasLetterDigitAdj (b :: t)
  | _ => false

/-- C1: REFUTATION of the spec's Scenario 1 normalizer output.  On the
raw introduction `"DilucisaPyrocharacterwhousesClaymore."`, `clean_text`
does not return `"Diluc is a Pyro character who uses Claymore."` (its
only applicable pass inserts a space at lowercase-uppercase boundaries,
so `"isa"` and `"whouses"` are never un-glued). -/
theorem clean_text_scenario1_refuted :
    ¬ clean_text "DilucisaPyrocharacterwhousesClaymore." =
      "Diluc is a Pyro character who uses Claymore." := by decide

/-- C1 (amended): on the Scenario 1 input, `clean_text` returns
`"Dilucisa Pyrocharacterwhouses Claymore."`, while the element extractor
returns `"Pyro"` and the weapon extractor returns `"Claymore"` exactly as
the scenario states. -/
theorem clean_text_scenario1_actual :
    clean_text "DilucisaPyrocharacterwhousesClaymore." =
      "Dilucisa Pyrocharacterwhouses Claymore." ∧
    _extract_field "DilucisaPyrocharacterwhousesClaymore."
      ["Pyro", "Hydro", "Electro", "Cryo", "Anemo", "Geo", "Dendro"] = some "Pyro" ∧
    _extract_field "DilucisaPyrocharacterwhousesClaymore."
      ["Sword", "Claymore", "Polearm", "Bow", "Catalyst"] = some "Claymore" := by
  refine ⟨by decide, by decide, by decide⟩

/-- C3: REFUTATION of normalizer idempotence.  The pass for the stuck
pattern `(\w)(character)(in)` resumes scanning after each match, so a
second occurrence of `"characterin"` straddling the match boundary is
only un-glued by a second run of `clean_text`. -/
theorem clean_text_not_idempotent :
    ¬ clean_text (clean_text "xcharacterincharacterin") =
      clean_text "xcharacterincharacterin" := by decide

/-- C3 (amended): `clean_text` is idempotent on every fixed point of
`clean_text` (in particular on any already-normalized text), but not on
every string. -/
theorem clean_text_idempotent_on_fixed_points (x : String) (h : clean_text x = x) :
    clean_text (clean_text x) = clean_text x := by rw [h]; exact h

/-- Witness for `clean_text_idempotent_on_fixed_points` at the concrete
fixed point `"Diluc is a hero."`. -/
theorem clean_text_idempotent_on_fixed_points_witness :
    clean_text (clean_text "Diluc is a hero.") = clean_text "Diluc is a hero." :=
  clean_text_idempotent_on_fixed_points "Diluc is a hero." (by decide)

/-- C5: REFUTATION.  `clean_text` has no letter-digit un-gluing pass: on
input `"a1"` the output still contains an ASCII letter immediately
followed by a decimal digit. -/
theorem clean_text_letter_digit_refuted :
    hasLetterDigitAdj (clean_text "a1").data = true := by decide

/-- C5 (amended): `clean_text` inserts no space between a letter and a
following digit; the input `"a1"` passes through unchanged, letter-digit
adjacency intact. -/
theorem clean_text_no_letter_digit_rule :
    clean_text "a1" = "a1" ∧ hasLetterDigitAdj (clean_text "a1").data = true := by
  refine ⟨by decide, by decide⟩

/-- C2: `extract_rarity` always returns 4 or 5, and returns 5 whenever
the name, or any whitespace-split token of the name, is in the static
five-star list, regardless of the introduction text. -/
theorem extract_rarity_total_and_static_list (name intro : String) :
    (extract_rarity name intro = 4 ∨ extract_rarity name intro = 5) ∧
    ((name ∈ FIVE_STAR_CHARS ∨ ∃ p ∈ pySplitWs name, p ∈ FIVE_STAR_CHARS) →
      extract_rarity name intro = 5) := by
  constructor
  · unfold extract_rarity
    split_ifs <;> simp
  · intro h
    unfold extract_rarity
    split_ifs with h1 h2 h3
    · rfl
    · rfl
    · rfl
    · exfalso
      rcases h with hname | ⟨p, hp, hpmem⟩
      · exact h2 (List.elem_iff.mpr hname)
      · exact h1 ((List.any_eq_true).mpr ⟨p, hp, List.elem_iff.mpr hpmem⟩)

/-- Witness for `extract_rarity_total_and_static_list`: "Zhongli" with an
introduction carrying no 5-star marker still yields 5, and the empty pair
yields 4 or 5. -/
theorem extract_rarity_total_and_static_list_witness :
    extract_rarity "Zhongli" "an ordinary description" = 5 ∧
    (extract_rarity "" "" = 4 ∨ extract_rarity "" "" = 5) :=
  ⟨(extract_rarity_total_and_static_list "Zhongli" "an ordinary description").2
      (Or.inl (by decide)),
    (extract_rarity_total_and_static_list "" "").1⟩

/-- C7: `extract_how_to_obtain` never returns an empty list, and when the
lowercased introduction contains none of the obtain keywords it returns
exactly `["Wishes"]`. -/
theorem extract_how_to_obtain_nonempty_and_default (intro : String) :
    ¬ extract_how_to_obtain intro = [] ∧
    ((pyContains (pyLower intro) "wish" = false ∧
      pyContains (pyLower intro) "wishes" = false ∧
      pyContains (pyLower intro) "event wish" = false ∧
      pyContains (pyLower intro) "chronicled wishes" = false ∧
      pyContains (pyLower intro) "paimon's bargains" = false ∧
      pyContains (pyLower intro) "adventure rank" = false ∧
      pyContains (pyLower intro) "archon quest" = false ∧
      pyContains (pyLower intro) "complete" = false) →
      extract_how_to_obtain intro = ["Wishes"]) := by
  constructor
  · have key : ∀ ms : List String, ¬ (if ms.isEmpty then ["Wishes"] else ms) = [] := by
      intro ms
      split
      · simp
      · next hne => simpa using hne
    exact key _
  · rintro ⟨h1, h2, h3, h4, h5, h6, h7, h8⟩
    unfold extract_how_to_obtain
    simp [h1, h2, h3, h4, h5, h6, h7, h8]

/-- Witness for `extract_how_to_obtain_nonempty_and_default` at a
keyword-free introduction. -/
theorem extract_how_to_obtain_nonempty_and_default_witness :
    ¬ extract_how_to_obtain "a quiet hero from the north" = [] ∧
    extract_how_to_obtain "a quiet hero from the north" = ["Wishes"] :=
  ⟨(extract_how_to_obtain_nonempty_and_default "a quiet hero from the north").1,
    (extract_how_to_obtain_nonempty_and_default "a quiet hero from the north").2
      ⟨by decide, by decide, by decide, by decide, by decide, by decide, by decide,
        by decide⟩⟩

/-- C6: whenever the lowercased space-joined concatenation of name, url
and introduction contains "wonderland", "gameplay mode" or
"system character", `extract_clean_description` returns the fixed canned
system-character sentence, for every section map (so with no contribution
from the official-introduction, marker, role-reveal or scored tiers). -/
theorem extract_clean_description_system_short_circuit
    (name intro full_text url : String) (sections : List (String × String))
    (h : pyContains (pyLower (name ++ " " ++ url ++ " " ++ intro)) "wonderland" = true ∨
         pyContains (pyLower (name ++ " " ++ url ++ " " ++ intro)) "gameplay mode" = true ∨
         pyContains (pyLower (name ++ " " ++ url ++ " " ++ intro)) "system character" = true) :
    extract_clean_description name intro full_text sections url =
      systemCharacterSentence := by
  have hsys : _is_system_character name url intro = true := by
    unfold _is_system_character
    rcases h with h | h | h <;> simp [h]
  unfold extract_clean_description
  simp [hsys]

/-- Witness for `extract_clean_description_system_short_circuit`: a
"gameplay mode" introduction short-circuits even with a long official
introduction available in the sections. -/
theorem extract_clean_description_system_short_circuit_witness :
    extract_clean_description "Manekin" "part of a gameplay mode" ""
      [("Official Introduction", "An interesting but irrelevant passage")] "" =
      systemCharacterSentence :=
  extract_clean_description_system_short_circuit "Manekin" "part of a gameplay mode" ""
    "" [("Official Introduction", "An interesting but irrelevant passage")]
    (Or.inr (Or.inl (by decide)))

/-- C4: extraction and rendering are deterministic: `process_character`
maps equal raw records to equal structured records, and `_create_rag_text`
renders the same structured record to byte-identical text (both are pure
functions of their argument in this embedding, as in the source, which
consults no external state). -/
theorem process_character_and_render_deterministic :
    (∀ r1 r2 : Raw, r1 = r2 → process_character r1 = process_character r2) ∧
    (∀ info : InfoCore, _create_rag_text info = _create_rag_text info) :=
  ⟨fun _ _ h => h ▸ rfl, fun _ => rfl⟩

/-- Witness for `process_character_and_render_deterministic` at a
concrete raw record. -/
theorem process_character_and_render_deterministic_witness :
    process_character ⟨some "A", Option.none, some "b", Option.none, Option.none⟩ =
      process_character ⟨some "A", Option.none, some "b", Option.none, Option.none⟩ ∧
    _create_rag_text
        (process_character
          ⟨some "A", Option.none, some "b", Option.none, Option.none⟩).toInfoCore =
      _create_rag_text
        (process_character
          ⟨some "A", Option.none, some "b", Option.none, Option.none⟩).toInfoCore :=
  ⟨process_character_and_render_deterministic.1 _ _ rfl,
    process_character_and_render_deterministic.2 _⟩

/-- C9: REFUTATION of the "empty-string defaults" phrasing: on a raw
record missing both `name` and `introduction`, `process_character`
proceeds with name default `"Unknown"`, not the empty string. -/
theorem process_character_missing_name_default_not_empty :
    (process_character
        ⟨Option.none, Option.none, Option.none, Option.none, Option.none⟩).name =
      "Unknown" ∧ ¬ ("Unknown" = "") :=
  ⟨rfl, by decide⟩

/-- A raw record with the `name` and `introduction` keys missing. -/
def missingKeysRaw (url ft : Option String)
    (secs : Option (List (String × String))) : Raw :=
  ⟨Option.none, url, Option.none, ft, secs⟩

/-- C9 (amended): on any raw record missing `name` and `introduction`,
`process_character` never fails: `name` falls back to `"Unknown"`,
`introduction` to `""`, and every introduction-derived field takes its
documented degraded default. -/
theorem process_character_missing_keys_degrade
    (url ft : Option String) (secs : Option (List (String × String))) :
    (process_character (missingKeysRaw url ft secs)).name = "Unknown" ∧
    (process_character (missingKeysRaw url ft secs)).element = Option.none ∧
    (process_character (missingKeysRaw url ft secs)).weapon = Option.none ∧
    (process_character (missingKeysRaw url ft secs)).rarity = 4 ∧
    (process_character (missingKeysRaw url ft secs)).region = Option.none ∧
    (process_character (missingKeysRaw url ft secs)).model_type = Option.none ∧
    (process_character (missingKeysRaw url ft secs)).title = Option.none ∧
    (process_character (missingKeysRaw url ft secs)).affiliations = [] ∧
    (process_character (missingKeysRaw url ft secs)).constellation = Option.none ∧
    (process_character (missingKeysRaw url ft secs)).roles = ⟨false, false, false, false, false⟩ ∧
    (process_character (missingKeysRaw url ft secs)).role_summary = "Unknown" ∧
    (process_character (missingKeysRaw url ft secs)).how_to_obtain = ["Wishes"] ∧
    (process_character (missingKeysRaw url ft secs)).release_date = Option.none ∧
    (process_character (missingKeysRaw url ft secs)).voice_actors = [] ∧
    (process_character (missingKeysRaw url ft secs)).character_type = "Biological" ∧
    (process_character (missingKeysRaw url ft secs)).event_wishes_count = Option.none ∧
    (process_character (missingKeysRaw url ft secs)).special_dish = Option.none ∧
    (process_character (missingKeysRaw url ft secs)).namecard = Option.none ∧
    (process_character (missingKeysRaw url ft secs)).real_name = Option.none ∧
    (process_character (missingKeysRaw url ft secs)).birthday = Option.none := by
  exact ⟨rfl, rfl, rfl, rfl, rfl, rfl, rfl, rfl, rfl, rfl, rfl, rfl, rfl, rfl, rfl,
    rfl, rfl, rfl, rfl, rfl⟩

/-- Membership in a `listConcatMap`. -/
theorem mem_listConcatMap {f : α → List β} {b : β} :
    ∀ {l : List α}, b ∈ listConcatMap f l ↔ ∃ a ∈ l, b ∈ f a := by
  intro l
  induction l with
  | nil => simp [listConcatMap]
  | cons x t ih => simp [listConcatMap, List.mem_append, ih]

/-- Every chunk coming from the sections loop has chunk type "section". -/
theorem sectionChunksFor_type (c : ChunkChar) (ch : Chunk)
    (h : ch ∈ sectionChunksFor c) : ch.chunk_type = "section" := by
  unfold sectionChunksFor at h
  rw [mem_listConcatMap] at h
  obtain ⟨kv, _, hch⟩ := h
  split at hch
  · simp at hch
    subst hch
    rfl
  · simp at hch

/-- The description-chunk emission condition, on a character whose
description key is stored. -/
theorem desc_chunk_mem_iff (c : ChunkChar) (d : String) (hd : c.description = some d) :
    ((∃ ch ∈ chunksForChar c, ch.chunk_type = "description") ↔
      (¬ d = "") ∧ 50 < d.length) := by
  constructor
  · rintro ⟨ch, hmem, hty⟩
    unfold chunksForChar at hmem
    rw [List.mem_cons] at hmem
    rcases hmem with hb | hmem
    · subst hb
      simp [basicChunkFor] at hty
    rw [List.mem_append, List.mem_append] at hmem
    rcases hmem with (hdm | hmm) | hsm
    · rw [hd] at hdm
      split at hdm
      · next hcond =>
          simp only [Bool.and_eq_true, decide_eq_true_eq] at hcond
          exact ⟨by simpa using hcond.1, hcond.2⟩
      · simp at hdm
    · split at hmm
      · simp at hmm
        subst hmm
        simp [metaChunkFor] at hty
      · simp at hmm
    · rw [sectionChunksFor_type c ch hsm] at hty
      simp at hty
  · rintro ⟨hne, hlen⟩
    refine ⟨descChunkFor c, ?_, rfl⟩
    unfold chunksForChar
    rw [List.mem_cons]
    right
    rw [List.mem_append]
    left
    rw [List.mem_append]
    left
    rw [hd]
    simp [hne, hlen]

/-- C8: for every processed character record, `create_smart_chunks`
always emits a `basic_info` chunk, and emits a `description` chunk iff
the record's description is longer than 50 characters (a 40-character
description therefore gets a `basic_info` chunk but no `description`
chunk). -/
theorem create_smart_chunks_basic_and_description (raw : Raw) :
    (∃ ch ∈ create_smart_chunks [toChunkChar (process_character raw)],
        ch.chunk_type = "basic_info") ∧
    ((∃ ch ∈ create_smart_chunks [toChunkChar (process_character raw)],
        ch.chunk_type = "description") ↔
      50 < (process_character raw).description.length) := by
  have hlist : create_smart_chunks [toChunkChar (process_character raw)] =
      chunksForChar (toChunkChar (process_character raw)) := by
    simp [create_smart_chunks, listConcatMap]
  constructor
  · exact ⟨basicChunkFor (toChunkChar (process_character raw)),
      by rw [hlist]; exact List.mem_cons_self _ _, rfl⟩
  · rw [hlist]
    rw [desc_chunk_mem_iff (toChunkChar (process_character raw))
      ((process_character raw).description) rfl]
    constructor
    · exact fun h => h.2
    · intro h
      refine ⟨fun he => ?_, h⟩
      rw [he] at h
      exact absurd h (by decide)

/-- String append is associative. -/
theorem strAppendAssoc (a b c : String) : (a ++ b) ++ c = a ++ (b ++ c) :=
  strExt (by simp [strDataAppend, List.append_assoc])

/-- Lemma: `dropWhile` never consumes past a block containing a non-`p`
element: the suffix after such a block survives intact. -/
theorem dropWhile_append_suffix (p : Char → Bool) (xs ys : List Char)
    (h : ∃ x ∈ xs, p x = false) :
    ∃ zs, List.dropWhile p (xs ++ ys) = zs ++ ys := by
  induction xs with
  | nil => simp at h
  | cons c t ih =>
      by_cases hc : p c = true
      · rw [List.cons_append, List.dropWhile_cons, if_pos hc]
        apply ih
        obtain ⟨x, hx, hpx⟩ := h
        rcases List.mem_cons.mp hx with hxc | hxt
        · rw [hxc] at hpx
          rw [hc] at hpx
          exact absurd hpx (by simp)
        · exact ⟨x, hxt, hpx⟩
      · rw [List.cons_append, List.dropWhile_cons, if_neg hc]
        exact ⟨c :: t, rfl⟩

/-- Python `strip` keeps any middle part `P` of a string whose prefix
starts with a non-whitespace character and whose suffix contains a
non-whitespace character. -/
theorem pyStrip_keeps (x : String) (A P B : List Char)
    (hx : x.data = A ++ (P ++ B))
    (hA : ∃ c0 t0, A = c0 :: t0 ∧ isWsChar c0 = false)
    (hB : ∃ c1 ∈ B, isWsChar c1 = false) :
    ∃ s t, (pyStrip x).data = s ++ P ++ t := by
  obtain ⟨c0, t0, hA0, hc0⟩ := hA
  have hdata : (pyStrip x).data = stripEndL (x.data.dropWhile isWsChar) := rfl
  rw [hdata, hx, hA0, List.cons_append, List.dropWhile_cons, if_neg (by simp [hc0])]
  unfold stripEndL
  have hrev : (c0 :: (t0 ++ (P ++ B))).reverse =
      B.reverse ++ (P.reverse ++ (c0 :: t0).reverse) := by
    rw [show c0 :: (t0 ++ (P ++ B)) = (c0 :: t0) ++ (P ++ B) by simp]
    rw [List.reverse_append, List.reverse_append, List.append_assoc]
  rw [hrev]
  obtain ⟨zs, hzs⟩ := dropWhile_append_suffix isWsChar B.reverse
    (P.reverse ++ (c0 :: t0).reverse)
    (by
      obtain ⟨c1, hc1, hcw⟩ := hB
      exact ⟨c1, List.mem_reverse.mpr hc1, hcw⟩)
  rw [hzs]
  refine ⟨c0 :: t0, zs.reverse, ?_⟩
  rw [List.reverse_append, List.reverse_append, List.reverse_reverse,
    List.reverse_reverse, List.append_assoc]

/-- Every info line starts with a dash. -/
theorem infoLine_dash_mem (l v : String) : '-' ∈ (infoLine l v).data :=
  List.mem_cons_self _ _

/-- If the element key of a chunker input holds `None`, the basic-info
chunk content contains the literal line fragment `"- Element: None"`. -/
theorem basic_content_element_none (c : ChunkChar) (h : c.element = some Option.none) :
    ∃ s t, (basicChunkFor c).content.data =
      s ++ ("- Element: None" : String).data ++ t := by
  have hEl : pyGetStrD c.element "Unknown" = "None" := by rw [h]; rfl
  have hxS : basicInfoText c =
      ("# " ++ c.name.getD "Unknown" ++ "\n\n## Basic Information\n") ++
      ("- Element: None" ++
        ("\n" ++
          (infoLine "Weapon" (pyGetStrD c.weapon "Unknown") ++
            ("- Rarity: " ++ (pyGetRarityD c.rarity ++ ("-Star\n" ++
              (infoLine "Region" (pyGetStrD c.region "Unknown") ++
                (infoLine "Role" (pyGetStrD c.role_summary "Unknown") ++
                  basicCondLines c)))))))) := by
    unfold basicInfoText
    rw [hEl]
    rw [show infoLine "Element" "None" = "- Element: None" ++ "\n" from by decide]
    simp only [strAppendAssoc]
  refine pyStrip_keeps (basicInfoText c)
    ("# " ++ c.name.getD "Unknown" ++ "\n\n## Basic Information\n").data
    ("- Element: None" : String).data
    ("\n" ++
      (infoLine "Weapon" (pyGetStrD c.weapon "Unknown") ++
        ("- Rarity: " ++ (pyGetRarityD c.rarity ++ ("-Star\n" ++
          (infoLine "Region" (pyGetStrD c.region "Unknown") ++
            (infoLine "Role" (pyGetStrD c.role_summary "Unknown") ++
              basicCondLines c))))))).data
    (by rw [hxS]; rfl)
    ⟨'#', _, rfl, by decide⟩
    ⟨'-', List.mem_cons_of_mem _ (List.mem_cons_self _ _), by decide⟩

/-- If the weapon key of a chunker input holds `None`, the basic-info
chunk content contains the literal line fragment `"- Weapon: None"`. -/
theorem basic_content_weapon_none (c : ChunkChar) (h : c.weapon = some Option.none) :
    ∃ s t, (basicChunkFor c).content.data =
      s ++ ("- Weapon: None" : String).data ++ t := by
  have hW : pyGetStrD c.weapon "Unknown" = "None" := by rw [h]; rfl
  have hxS : basicInfoText c =
      ("# " ++ c.name.getD "Unknown" ++
        ("\n\n## Basic Information\n" ++
          infoLine "Element" (pyGetStrD c.element "Unknown"))) ++
      ("- Weapon: None" ++
        ("\n" ++
          ("- Rarity: " ++ (pyGetRarityD c.rarity ++ ("-Star\n" ++
            (infoLine "Region" (pyGetStrD c.region "Unknown") ++
              (infoLine "Role" (pyGetStrD c.role_summary "Unknown") ++
                basicCondLines c))))))) := by
    unfold basicInfoText
    rw [hW]
    rw [show infoLine "Weapon" "None" = "- Weapon: None" ++ "\n" from by decide]
    simp only [strAppendAssoc]
  refine pyStrip_keeps (basicInfoText c)
    ("# " ++ c.name.getD "Unknown" ++
      ("\n\n## Basic Information\n" ++
        infoLine "Element" (pyGetStrD c.element "Unknown"))).data
    ("- Weapon: None" : String).data
    ("\n" ++
      ("- Rarity: " ++ (pyGetRarityD c.rarity ++ ("-Star\n" ++
        (infoLine "Region" (pyGetStrD c.region "Unknown") ++
          (infoLine "Role" (pyGetStrD c.role_summary "Unknown") ++
            basicCondLines c)))))).data
    (by rw [hxS]; rfl)
    ⟨'#', _, rfl, by decide⟩
    ⟨'-', List.mem_cons_of_mem _ (List.mem_cons_self _ _), by decide⟩

/-- If the region key of a chunker input holds `None`, the basic-info
chunk content contains the literal line fragment `"- Region: None"`. -/
theorem basic_content_region_none (c : ChunkChar) (h : c.region = some Option.none) :
    ∃ s t, (basicChunkFor c).content.data =
      s ++ ("- Region: None" : String).data ++ t := by
  have hG : pyGetStrD c.region "Unknown" = "None" := by rw [h]; rfl
  have hxS : basicInfoText c =
      ("# " ++ c.name.getD "Unknown" ++
        ("\n\n## Basic Information\n" ++
          (infoLine "Element" (pyGetStrD c.element "Unknown") ++
            (infoLine "Weapon" (pyGetStrD c.weapon "Unknown") ++
              ("- Rarity: " ++ (pyGetRarityD c.rarity ++ "-Star\n")))))) ++
      ("- Region: None" ++
        ("\n" ++
          (infoLine "Role" (pyGetStrD c.role_summary "Unknown") ++
            basicCondLines c))) := by
    unfold basicInfoText
    rw [hG]
    rw [show infoLine "Region" "None" = "- Region: None" ++ "\n" from by decide]
    simp only [strAppendAssoc]
  refine pyStrip_keeps (basicInfoText c)
    ("# " ++ c.name.getD "Unknown" ++
      ("\n\n## Basic Information\n" ++
        (infoLine "Element" (pyGetStrD c.element "Unknown") ++
          (infoLine "Weapon" (pyGetStrD c.weapon "Unknown") ++
            ("- Rarity: " ++ (pyGetRarityD c.rarity ++ "-Star\n")))))).data
    ("- Region: None" : String).data
    ("\n" ++
      (infoLine "Role" (pyGetStrD c.role_summary "Unknown") ++
        basicCondLines c)).data
    (by rw [hxS]; rfl)
    ⟨'#', _, rfl, by decide⟩
    ⟨'-', List.mem_cons_of_mem _ (List.mem_cons_self _ _), by decide⟩

/-- C10: on every processed record, `process_character` stores the
element / weapon / region keys (with value `None` when keyword extraction
found nothing), so the chunker's `'Unknown'` missing-key fallback is
never taken, and a `None`-valued field renders the literal string
`"None"` in the basic-info chunk content. -/
theorem basic_chunk_renders_none_for_missing_fields (raw : Raw) :
    (¬ (toChunkChar (process_character raw)).element = Option.none ∧
     ¬ (toChunkChar (process_character raw)).weapon = Option.none ∧
     ¬ (toChunkChar (process_character raw)).region = Option.none) ∧
    basicChunkFor (toChunkChar (process_character raw)) ∈
      create_smart_chunks [toChunkChar (process_character raw)] ∧
    ((process_character raw).element = Option.none →
      ∃ s t, (basicChunkFor (toChunkChar (process_character raw))).content.data =
        s ++ ("- Element: None" : String).data ++ t) ∧
    ((process_character raw).weapon = Option.none →
      ∃ s t, (basicChunkFor (toChunkChar (process_character raw))).content.data =
        s ++ ("- Weapon: None" : String).data ++ t) ∧
    ((process_character raw).region = Option.none →
      ∃ s t, (basicChunkFor (toChunkChar (process_character raw))).content.data =
        s ++ ("- Region: None" : String).data ++ t) := by
  refine ⟨⟨fun h => Option.noConfusion h, fun h => Option.noConfusion h,
      fun h => Option.noConfusion h⟩, ?_, ?_, ?_, ?_⟩
  · have hlist : create_smart_chunks [toChunkChar (process_character raw)] =
        chunksForChar (toChunkChar (process_character raw)) := by
      simp [create_smart_chunks, listConcatMap]
    rw [hlist]
    exact List.mem_cons_self _ _
  · intro h
    exact basic_content_element_none _ (by rw [show (toChunkChar (process_character raw)).element = some ((process_character raw).element) from rfl, h])
  · intro h
    exact basic_content_weapon_none _ (by rw [show (toChunkChar (process_character raw)).weapon = some ((process_character raw).weapon) from rfl, h])
  · intro h
    exact basic_content_region_none _ (by rw [show (toChunkChar (process_character raw)).region = some ((process_character raw).region) from rfl, h])

/-- Witness for `basic_chunk_renders_none_for_missing_fields` at a raw
record whose introduction mentions no element, weapon or region. -/
theorem basic_chunk_renders_none_for_missing_fields_witness :
    ∃ s t, (basicChunkFor (toChunkChar (process_character
        ⟨some "Testchar", some "", some "a quiet person", some "", some []⟩))).content.data =
      s ++ ("- Element: None" : String).data ++ t :=
  (basic_chunk_renders_none_for_missing_fields
    ⟨some "Testchar", some "", some "a quiet person", some "", some []⟩).2.2.1
    (by decide)

/-- Witness for `create_smart_chunks_basic_and_description`: a processed
record with a short description gets a basic-info chunk, and no
description chunk is forced by the iff since 40-character descriptions
fail the threshold. -/
theorem create_smart_chunks_basic_and_description_witness :
    ∃ ch ∈ create_smart_chunks [toChunkChar (process_character
        ⟨some "T", some "", some "a short intro", some "", some []⟩)],
      ch.chunk_type = "basic_info" :=
  (create_smart_chunks_basic_and_description
    ⟨some "T", some "", some "a short intro", some "", some []⟩).1
